import Mathlib

/-!
Shallow embedding of the `dirty` Rust crate (`src/lib.rs`).

The crate defines `Dirty<T>`, a cell wrapping a value of type `T` together
with a boolean dirty flag.  Methods taking `&self` cannot mutate the cell in
Rust (there is no interior mutability in this crate), so they are embedded as
functions returning the result paired with the post-call state; methods
taking `&mut self` are embedded as state transformers.  Mutation performed by
the caller through the `&mut T` handle returned by `write` is embedded as a
separate assignment operation.
-/

/-- Rust `struct Dirty<T> { value: T, dirty: bool }`. -/
structure Dirty (α : Type) where
  value : α
  dirty : Bool

namespace Dirty

variable {α : Type}

/-- Rust `Dirty::new(val)`: builds `Dirty { value: val, dirty: true }`. -/
def new (val : α) : Dirty α :=
  { value := val, dirty := true }

/-- Rust `Dirty::dirty(&self)`: returns `self.dirty`.  The receiver is a
shared borrow, so the post-call state is the unchanged cell; the embedding
returns the result paired with that post-state. -/
def dirtyQ (c : Dirty α) : Bool × Dirty α :=
  (c.dirty, c)

/-- Rust `Dirty::write(&mut self)`: sets `self.dirty = true` and returns
`&mut self.value`.  This is the state of the cell right after the call,
before any mutation through the returned handle. -/
def write (c : Dirty α) : Dirty α :=
  { c with dirty := true }

/-- The caller-side assignment `*c.write() = v`: the cell after calling
`write` and then storing `v` through the returned `&mut T` handle. -/
def writeAssign (c : Dirty α) (v : α) : Dirty α :=
  { write c with value := v }

/-- Rust `Dirty::read(&self)`: returns `&self.value`; shared borrow, so the
post-call state is the unchanged cell. -/
def read (c : Dirty α) : α × Dirty α :=
  (c.value, c)

/-- Rust `Dirty::clear(&mut self)`: sets `self.dirty = false`. -/
def clear (c : Dirty α) : Dirty α :=
  { c with dirty := false }

/-- Rust `Dirty::read_dirty(&self)`: matches on `self.dirty`, returning
`Some(&self.value)` when true and `None` when false; shared borrow, so the
post-call state is the unchanged cell. -/
def read_dirty (c : Dirty α) : Option α × Dirty α :=
  (match c.dirty with
   | true => some c.value
   | false => none, c)

/-- Rust `<Dirty<T> as Deref>::deref(&self)`: returns `&self.value`; shared
borrow, so the post-call state is the unchanged cell. -/
def deref (c : Dirty α) : α × Dirty α :=
  (c.value, c)

/-- Rust `<Dirty<T> as Default>::default()` where `T: Default`: calls
`Dirty::new(T::default())`.  The default value of `T` is passed explicitly
as `d`. -/
def defaultD (d : α) : Dirty α :=
  new d

end Dirty

/-- C1: `read_dirty` returns a present result carrying the current held
value iff the flag was true before the call, returns `none` iff it was
false, and (Variant B) leaves the cell's state — flag and value — unchanged
in both cases. -/
theorem read_dirty_iff_dirty {α : Type} (c : Dirty α) :
    ((c.read_dirty).1 = some (c.read).1 ↔ (c.dirtyQ).1 = true) ∧
    ((c.read_dirty).1 = none ↔ (c.dirtyQ).1 = false) ∧
    (c.read_dirty).2 = c := by
  obtain ⟨v, b⟩ := c
  cases b <;> simp [Dirty.read_dirty, Dirty.read, Dirty.dirtyQ]

/-- C2: `write` leaves the flag true afterward for every prior state, and
the returned `&mut T` handle refers to the held value (the value itself is
not altered by the call). -/
theorem write_sets_flag {α : Type} (c : Dirty α) :
    (c.write).dirty = true ∧ (c.write).value = c.value := by
  exact ⟨rfl, rfl⟩

/-- C3: `read` is a pure query: it returns the held value, leaves the
cell's state unchanged, and iterating it any number of times still leaves
the state unchanged. -/
theorem read_pure {α : Type} (c : Dirty α) :
    (c.read).1 = c.value ∧ (c.read).2 = c ∧
    ∀ n : ℕ, (fun s : Dirty α => (s.read).2)^[n] c = c := by
  refine ⟨rfl, rfl, ?_⟩
  intro n
  induction n with
  | zero => rfl
  | succ k ih => rw [Function.iterate_succ_apply, show (c.read).2 = c from rfl, ih]

/-- C4: a cell freshly constructed by `new v` has its dirty flag true, for
every initial value `v`. -/
theorem new_is_dirty {α : Type} (v : α) :
    ((Dirty.new v).dirtyQ).1 = true := by
  rfl

/-- C5: `clear` leaves the flag false afterward for every prior state, and
clearing twice in a row equals clearing once. -/
theorem clear_clears_and_idempotent {α : Type} (c : Dirty α) :
    (c.clear).dirty = false ∧ (c.clear).clear = c.clear := by
  exact ⟨rfl, rfl⟩

/-- C6: round-trip — assigning `v` through the handle returned by `write`
and then calling `read` yields `v`, and it still yields `v` after any
number of further reads. -/
theorem write_read_roundtrip {α : Type} (c : Dirty α) (v : α) :
    ((c.writeAssign v).read).1 = v ∧
    ∀ n : ℕ, (((fun s : Dirty α => (s.read).2)^[n] (c.writeAssign v)).read).1 = v := by
  refine ⟨rfl, ?_⟩
  intro n
  induction n with
  | zero => rfl
  | succ k ih => rw [Function.iterate_succ_apply]; exact ih

/-- C7: side effects are confined to the flag: `write` and `clear` leave
the held value unchanged, and the shared-borrow queries `dirtyQ`, `read`,
`read_dirty` and `deref` leave the whole state unchanged — in particular
`dirty()` mutates nothing.  Only `writeAssign` (the caller's mutation
through the write handle) changes the value. -/
theorem side_effects_flag_only {α : Type} (c : Dirty α) :
    (c.write).value = c.value ∧ (c.clear).value = c.value ∧
    (c.dirtyQ).2 = c ∧ (c.read).2 = c ∧ (c.read_dirty).2 = c ∧
    (c.deref).2 = c := by
  exact ⟨rfl, rfl, rfl, rfl, rfl, rfl⟩

/-- C8: transparent dereference equals `read`: `deref` yields exactly the
value `read` returns and leaves the dirty flag and the rest of the state
unchanged. -/
theorem deref_eq_read {α : Type} (c : Dirty α) :
    (c.deref).1 = (c.read).1 ∧ (c.deref).2 = c := by
  exact ⟨rfl, rfl⟩

/-- C9: default construction yields a cell holding `T`'s default value with
the dirty flag true — the very same state as explicit construction via
`new` on the default value. -/
theorem default_eq_new {α : Type} (d : α) :
    (Dirty.defaultD d).value = d ∧ (Dirty.defaultD d).dirty = true ∧
    Dirty.defaultD d = Dirty.new d := by
  exact ⟨rfl, rfl, rfl⟩

/-- C10: the constructor stores exactly the value it is given: `new v`
returns `v` from `read`, from `deref`, and — being initially dirty — as the
present payload of `read_dirty`; assigning through the write handle then
changes it. -/
theorem new_stores_value {α : Type} (v w : α) :
    ((Dirty.new v).read).1 = v ∧ ((Dirty.new v).deref).1 = v ∧
    ((Dirty.new v).read_dirty).1 = some v ∧
    (((Dirty.new v).writeAssign w).read).1 = w := by
  exact ⟨rfl, rfl, rfl, rfl⟩
